import Mathlib

/-!
Verification model of the MySpot weather pipeline (`section-cards` component).

The source is a React component that acquires a geographic position from the
browser's geolocation stream, decides at most once when a fix is good enough,
fetches weather data from OpenWeatherMap, samples the forecast into
three-hourly points, and optionally reverse-geocodes a place name.

JavaScript numbers are modelled by `JsNum`: a finite rational, `NaN`, or a
signed infinity.  Effectful code is modelled by explicit state passing
(`SessionState` for the geolocation session) and by event traces
(`FetchEvent` for the asynchronous fetch procedure, with cooperative
cancellation checkpoints).
-/

/-- A JavaScript `number`: finite value, `NaN`, `Infinity` or `-Infinity`. -/
inductive JsNum where
  | num (q : ℚ)
  | nan
  | posInf
  | negInf
  deriving DecidableEq, Repr

namespace JsNum

/-- Model of `Number.isNaN`. -/
def isNaN : JsNum → Bool
  | nan => true
  | _ => false

/-- Model of `Number.isFinite`. -/
def isFinite : JsNum → Bool
  | num _ => true
  | _ => false

/-- Multiplication by a positive rational constant (used for `* 1000`,
`* 10`, `/ 10`, `* 100` in the source). -/
def scale : JsNum → ℚ → JsNum
  | num q, k => num (q * k)
  | nan, _ => nan
  | posInf, _ => posInf
  | negInf, _ => negInf

end JsNum

/-- The `<=` comparison on non-`NaN` JavaScript numbers; any comparison
with `NaN` is false. -/
def jsLe : JsNum → JsNum → Bool
  | .nan, _ => false
  | _, .nan => false
  | .negInf, _ => true
  | _, .posInf => true
  | .posInf, _ => false
  | _, .negInf => false
  | .num a, .num b => decide (a ≤ b)

/-- Model of `Math.round`: round half toward positive infinity; fixes `NaN` and
the infinities. -/
def jsRound : JsNum → JsNum
  | .num q => .num ((⌊q + 1 / 2⌋ : ℤ) : ℚ)
  | x => x

/-- Model of `Math.min` on two numbers. -/
def jsMin (a b : JsNum) : JsNum :=
  if a.isNaN || b.isNaN then .nan else if jsLe a b then a else b

/-- Model of `Math.max` on two numbers. -/
def jsMax (a b : JsNum) : JsNum :=
  if a.isNaN || b.isNaN then .nan else if jsLe a b then b else a

/-! ## ForecastSampler (`buildThreeHourlyForecast`) -/

def HOURS_TO_DISPLAY : ℕ := 24

def FORECAST_INTERVAL_HOURS : ℕ := 3

/-- Value of `Math.floor(HOURS_TO_DISPLAY / FORECAST_INTERVAL_HOURS)`. -/
def FORECAST_POINTS : ℕ := HOURS_TO_DISPLAY / FORECAST_INTERVAL_HOURS

/-- Source: `const toPercent = (fraction) => Math.max(0, Math.min(100, Math.round(fraction * 100)))`. -/
def toPercent (fraction : JsNum) : JsNum :=
  jsMax (.num 0) (jsMin (.num 100) (jsRound (fraction.scale 100)))

/-- One raw forecast record: optional epoch seconds `dt`, optional formatted
timestamp `dt_txt`, optional `main.temp` (collapsing the optional `main`
object and its optional `temp` field), optional `pop` fraction.  A `none`
field models either an absent field or a non-`number` value, matching the
source's `typeof` checks. -/
structure RawForecastEntry where
  dt : Option JsNum
  dt_txt : Option String
  main_temp : Option JsNum
  pop : Option JsNum
  deriving DecidableEq, Repr

/-- One sampled display point (`HourlyForecastPoint` in the source). -/
structure HourlyForecastPoint where
  time : String
  temp : JsNum
  pop : JsNum
  deriving DecidableEq, Repr

/-- The body of the `.map` in `buildThreeHourlyForecast`, for one (possibly
null) raw record.  `parse` models `Date.parse` (returning `NaN` on failure),
`fmt` models `TIME_FORMATTER.format(new Date(timestamp))`. -/
def mapForecastEntry (parse : String → JsNum) (fmt : JsNum → String) :
    Option RawForecastEntry → Option HourlyForecastPoint
  | none => none
  | some entry =>
    let timestamp : JsNum :=
      match entry.dt with
      | some d => d.scale 1000
      | none =>
        match entry.dt_txt with
        | some s => if s = "" then JsNum.nan else parse s
        | none => JsNum.nan
    if timestamp.isFinite then
      match entry.main_temp with
      | none => none
      | some t =>
        if t.isNaN then none
        else
          let probability : JsNum :=
            match entry.pop with
            | some p => if p.isFinite then p else JsNum.num 0
            | none => JsNum.num 0
          some { time := fmt timestamp
                 temp := (jsRound (t.scale 10)).scale (1 / 10)
                 pop := toPercent probability }
    else none

/-- Model of `buildThreeHourlyForecast`: take the first `FORECAST_POINTS` records,
map each to a point or `null`, and keep the non-null points.  (The
`Array.isArray` guard cannot fail in this typed model.) -/
def buildThreeHourlyForecast (parse : String → JsNum) (fmt : JsNum → String)
    (forecast : List (Option RawForecastEntry)) : List HourlyForecastPoint :=
  ((forecast.take FORECAST_POINTS).map (mapForecastEntry parse fmt)).filterMap id

/-- Concrete stand-in for `Date.parse` in closed evaluations (never consulted
by the records used there, which all carry a numeric `dt`). -/
def parse0 : String → JsNum := fun _ => JsNum.nan

/-- Concrete stand-in for the `Intl` time formatter in closed evaluations. -/
def fmt0 : JsNum → String := fun _ => ""

/-- The round-trip record of the spec:
`{dt: 1700000000, main: {temp: 21.36}, pop: 0.42}`. -/
def sampleRecord : RawForecastEntry :=
  { dt := some (.num 1700000000)
    dt_txt := none
    main_temp := some (.num (2136 / 100))
    pop := some (.num (42 / 100)) }

/-- A record whose temperature is `Infinity` (non-finite but not `NaN`). -/
def infiniteTempRecord : RawForecastEntry :=
  { dt := some (.num 1)
    dt_txt := none
    main_temp := some .posInf
    pop := none }

/-! ## LocationAcquirer (the geolocation session inside `useEffect`) -/

def MIN_LOCATION_ACCURACY_METERS : ℚ := 100

/-- The coordinate fields of a `GeolocationPosition` read by the source. -/
structure GeoCoords where
  latitude : JsNum
  longitude : JsNum
  accuracy : JsNum
  deriving DecidableEq, Repr

/-- The effective accuracy used for the threshold test:
`typeof accuracy === "number" && Number.isFinite(accuracy) ? accuracy : Infinity`. -/
def effAccuracy (a : JsNum) : JsNum :=
  if a.isFinite then a else .posInf

/-- Whether a fix passes the threshold test
`accuracyValue <= MIN_LOCATION_ACCURACY_METERS`. -/
def qualifies (p : GeoCoords) : Bool :=
  jsLe (effAccuracy p.accuracy) (.num MIN_LOCATION_ACCURACY_METERS)

/-- The coordinate validity test shared by `maybeUsePosition` and
`fetchWeatherForPosition`: rejects exactly `NaN` latitudes/longitudes
(the `typeof` half of the test cannot fail in this typed model). -/
def validCoords (p : GeoCoords) : Bool :=
  !p.latitude.isNaN && !p.longitude.isNaN

/-- The mutable session variables of the effect, plus two observation
traces: `fetched` records every position handed to
`fetchWeatherForPosition`, `errorReports` every message handed to
`reportLocationError`. -/
structure SessionState where
  isCancelled : Bool
  watching : Bool
  timerActive : Bool
  bestPosition : Option GeoCoords
  hasFetched : Bool
  fetched : List GeoCoords
  errorReports : List String
  deriving DecidableEq, Repr

/-- Model of `stopWatching`: clear the watch subscription and the fallback timer. -/
def stopWatching (s : SessionState) : SessionState :=
  { s with watching := false, timerActive := false }

/-- Model of `describeGeoError` over the error `code` and `message` fields. -/
def describeGeoError (code : ℕ) (message : String) : String :=
  if code = 1 then "Location permission was denied."
  else if code = 2 then "Unable to determine your location."
  else if code = 3 then "Timed out while trying to retrieve your location."
  else if message = "" then "Unable to retrieve your location."
  else message

/-- Model of `reportLocationError` as it affects the session (its React state updates
are modelled separately by `reportMuts`). -/
def reportLocationError (s : SessionState) (message : String) : SessionState :=
  if s.isCancelled then s
  else { stopWatching s with errorReports := s.errorReports ++ [message] }

/-- Model of `maybeUsePosition`: the success callback of `watchPosition`.  Note that
the source assigns `bestPosition = position` unconditionally once the
coordinates pass the `NaN` test. -/
def maybeUsePosition (s : SessionState) (p : GeoCoords) : SessionState :=
  if s.isCancelled || s.hasFetched then s
  else if p.latitude.isNaN || p.longitude.isNaN then s
  else
    let s1 := { s with bestPosition := some p }
    if qualifies p then
      { stopWatching { s1 with hasFetched := true } with fetched := s1.fetched ++ [p] }
    else s1

/-- Model of `handleGeoError`: the error callback of `watchPosition`. -/
def handleGeoError (s : SessionState) (code : ℕ) (message : String) : SessionState :=
  if s.isCancelled then s
  else
    match s.bestPosition with
    | some bp =>
      if s.hasFetched then reportLocationError s (describeGeoError code message)
      else { stopWatching { s with hasFetched := true } with fetched := s.fetched ++ [bp] }
    | none => reportLocationError s (describeGeoError code message)

/-- The body of the fallback `setTimeout`. -/
def fallbackTimerFire (s : SessionState) : SessionState :=
  if s.isCancelled || s.hasFetched then s
  else
    match s.bestPosition with
    | some bp => { stopWatching { s with hasFetched := true } with fetched := s.fetched ++ [bp] }
    | none => reportLocationError s "Unable to refine your location."

/-- The effect's cleanup function (`isCancelled = true; stopWatching()`;
the `controller.abort()` part is modelled by `CancelSchedule` in the fetch
model). -/
def cancelCleanup (s : SessionState) : SessionState :=
  { stopWatching s with isCancelled := true }

/-- External events a session can receive: a position update or stream
error (delivered only while the watch subscription is active), the fallback
timer firing (only while the timer is set), and cancellation. -/
inductive GeoEvent where
  | posUpdate (p : GeoCoords)
  | geoError (code : ℕ) (message : String)
  | timerFire
  | cancel
  deriving DecidableEq, Repr

/-- One cooperative step of the session. -/
def step (s : SessionState) : GeoEvent → SessionState
  | .posUpdate p => if s.watching then maybeUsePosition s p else s
  | .geoError code message => if s.watching then handleGeoError s code message else s
  | .timerFire => if s.timerActive then fallbackTimerFire s else s
  | .cancel => cancelCleanup s

/-- Run a session over a sequence of events. -/
def run (s : SessionState) (events : List GeoEvent) : SessionState :=
  events.foldl step s

/-- The state right after the effect body ran: watch started, fallback
timer armed, nothing seen yet. -/
def sessionInit : SessionState :=
  { isCancelled := false
    watching := true
    timerActive := true
    bestPosition := none
    hasFetched := false
    fetched := []
    errorReports := [] }

/-- A fix above the threshold with accuracy 150 m. -/
def fixA150 : GeoCoords := { latitude := .num 35, longitude := .num 139, accuracy := .num 150 }

/-- A later fix above the threshold with strictly worse accuracy, 500 m. -/
def fixA500 : GeoCoords := { latitude := .num 36, longitude := .num 140, accuracy := .num 500 }

/-- A fix whose latitude is `Infinity` but whose accuracy qualifies. -/
def fixInfLat : GeoCoords := { latitude := .posInf, longitude := .num 139, accuracy := .num 50 }

/-! ## PlaceResolver (`resolveLocationName`) -/

/-- Fields of `results[0].components` as read by the source. -/
structure GeocodeComponents where
  city : Option String
  deriving DecidableEq, Repr

/-- One entry of `results`; the entry itself may be `null`. -/
structure GeocodeResultEntry where
  components : Option GeocodeComponents
  deriving DecidableEq, Repr

/-- The reverse-geocoding response body. -/
structure GeocodeJson where
  results : Option (List (Option GeocodeResultEntry))
  deriving DecidableEq, Repr

/-- The environment of one `resolveLocationName` call: whether the OpenCage
key is configured, whether the request was aborted (an `AbortError`),
the HTTP success flag, and the parsed body (`none` when parsing failed). -/
structure GeocodeEnv where
  keyPresent : Bool
  aborted : Bool
  ok : Bool
  body : Option GeocodeJson
  deriving DecidableEq, Repr

/-- Model of `resolveLocationName`: every failure path collapses to `none`. -/
def resolveLocationName (env : GeocodeEnv) : Option String :=
  if !env.keyPresent then none
  else if env.aborted then none
  else if !env.ok then none
  else
    match env.body with
    | none => none
    | some data =>
      match data.results with
      | none => none
      | some rs =>
        match rs.head? with
        | none => none
        | some none => none
        | some (some r) =>
          match r.components with
          | none => none
          | some comps =>
            match comps.city with
            | none => none
            | some city => if city.trim = "" then none else some city.trim

/-! ## WeatherFetcher and orchestration (`fetchWeatherForPosition`) -/

/-- The fields of the current-conditions body read by the source.
`weather` is `none` when absent or not an array; its entries may be `null`.
`main_temp` collapses `main?.temp` with its `typeof` check. -/
structure WeatherDesc where
  description : String
  icon : String
  deriving DecidableEq, Repr

structure CurrentJson where
  message : Option String
  error : Option String
  main_temp : Option JsNum
  weather : Option (List (Option WeatherDesc))
  name : String
  deriving DecidableEq, Repr

/-- The fields of the forecast body read by the source. -/
structure ForecastJson where
  message : Option String
  error : Option String
  list : Option (List (Option RawForecastEntry))
  deriving DecidableEq, Repr

/-- An HTTP response with its parsed JSON body (`none` when
`res.json()` rejected and the `.catch(() => null)` fired). -/
structure HttpResp (α : Type) where
  ok : Bool
  status : ℕ
  body : Option α
  deriving DecidableEq, Repr

/-- JavaScript `a || b` on nullable strings (the empty string is falsy). -/
def jsStrOr (a b : Option String) : Option String :=
  match a with
  | some s => if s = "" then b else some s
  | none => b

/-- The error message built for a non-2xx response:
`json && (json.message || json.error) ? status + " " + it : "HTTP " + status`. -/
def httpFailureMsg (status : ℕ) (joined : Option (Option String)) : String :=
  match joined with
  | some (some s) =>
    if s = "" then "HTTP " ++ toString status else toString status ++ " " ++ s
  | some none => "HTTP " ++ toString status
  | none => "HTTP " ++ toString status

/-- Model of `geocodedName || currentJson.name`. -/
def snapshotName (geocoded : Option String) (fallback : String) : String :=
  match geocoded with
  | some s => if s = "" then fallback else s
  | none => fallback

/-- The weather snapshot stored by `setWeather`. -/
structure WeatherSnapshot where
  name : String
  temp : JsNum
  description : String
  iconCode : String
  deriving DecidableEq, Repr

/-- The environment of one `fetchWeatherForPosition` run: the credential
flag, the two weather responses, the geocoding environment, and the two
external helpers of the sampler. -/
structure FetchEnv where
  apiKeyPresent : Bool
  currentRes : HttpResp CurrentJson
  forecastRes : HttpResp ForecastJson
  geo : GeocodeEnv
  parseDate : String → JsNum
  fmtTime : JsNum → String

/-- The status/shape validation of the `try` block (source lines 250-291),
returning either the thrown error message or the extracted temperature,
weather descriptor, fallback name and sampled forecast. -/
def validateAndExtract (env : FetchEnv) :
    Except String (JsNum × WeatherDesc × String × List HourlyForecastPoint) :=
  if env.currentRes.ok = false then
    .error (httpFailureMsg env.currentRes.status
      (env.currentRes.body.map fun cj => jsStrOr cj.message cj.error))
  else if env.forecastRes.ok = false then
    .error (httpFailureMsg env.forecastRes.status
      (env.forecastRes.body.map fun fj => jsStrOr fj.message fj.error))
  else
    match env.currentRes.body with
    | none => .error "Current weather data is unavailable."
    | some cj =>
      match cj.main_temp, cj.weather with
      | none, _ => .error "Current weather data is unavailable."
      | some _, none => .error "Current weather data is unavailable."
      | some temp, some ws =>
        match ws.head? with
        | none => .error "Current weather data is unavailable."
        | some none => .error "Current weather data is unavailable."
        | some (some w) =>
          match env.forecastRes.body with
          | none => .error "Hourly forecast data is unavailable."
          | some fj =>
            match fj.list with
            | none => .error "Hourly forecast data is unavailable."
            | some fl =>
              if fl.isEmpty then .error "Hourly forecast data is unavailable."
              else
                let hourly := buildThreeHourlyForecast env.parseDate env.fmtTime fl
                if hourly.isEmpty then .error "Unable to prepare hourly forecast data."
                else .ok (temp, w, cj.name, hourly)

/-- A React state update issued by the effect. -/
inductive StateMut where
  | setLoading (b : Bool)
  | setError (e : Option String)
  | setWeather (w : Option WeatherSnapshot)
  | setForecast (f : List HourlyForecastPoint)
  deriving DecidableEq, Repr

/-- Observable events of one `fetchWeatherForPosition` run.  `emit k m`
is the state update `m` issued while the latest passed await checkpoint is
`k`; `requestWeatherPair` is the concurrent pair of weather requests;
`weatherSettled` marks both weather responses having arrived;
`requestGeocode` is the reverse-geocoding request. -/
inductive FetchEvent where
  | requestWeatherPair
  | weatherSettled
  | requestGeocode
  | emit (k : ℕ) (m : StateMut)
  deriving DecidableEq, Repr

/-- The value of `isCancelled` at the run's await checkpoints:
`c0` on entry, `c1` when the weather requests settle (true means the
`AbortController` fired while they were in flight), `c2` after the JSON
bodies are parsed, `c3` after the geocoding call returns. -/
structure CancelSchedule where
  c0 : Bool
  c1 : Bool
  c2 : Bool
  c3 : Bool
  deriving DecidableEq, Repr

/-- Cancellation is monotone: once `isCancelled` is set it stays set. -/
def CancelSchedule.mono (c : CancelSchedule) : Prop :=
  (c.c0 = true → c.c1 = true) ∧ (c.c1 = true → c.c2 = true) ∧ (c.c2 = true → c.c3 = true)

/-- Look up a checkpoint's cancellation flag. -/
def checkpointCancelled (c : CancelSchedule) : ℕ → Bool
  | 0 => c.c0
  | 1 => c.c1
  | 2 => c.c2
  | _ => c.c3

/-- The state updates of `reportLocationError` (guarded by `isCancelled`). -/
def reportMuts (cancelled : Bool) (message : String) : List StateMut :=
  if cancelled then []
  else [.setWeather none, .setForecast [], .setError (some message), .setLoading false]

/-- The never-cancelled schedule. -/
def noCancel : CancelSchedule := { c0 := false, c1 := false, c2 := false, c3 := false }

/-- One `fetchWeatherForPosition` run as an event trace.  Mirrors the
source: entry cancellation check, coordinate re-check, credential check,
`setLoading(true)`/`setError(null)`, the concurrent weather requests, abort
handling, validation (whose thrown errors reach the `catch` block, which
consults `isCancelled` at checkpoint 2), the geocoding call, the final
cancellation check at checkpoint 3, and the `finally` block folded into
each exit path. -/
def runFetch (env : FetchEnv) (c : CancelSchedule) (pos : GeoCoords) : List FetchEvent :=
  if c.c0 then []
  else if pos.latitude.isNaN || pos.longitude.isNaN then
    (reportMuts false "Received invalid coordinates from geolocation.").map (.emit 0)
  else if env.apiKeyPresent = false then
    (reportMuts false "Missing OpenWeatherMap API key (VITE_OPENWEATHER_API_KEY).").map (.emit 0)
  else
    [.emit 0 (.setLoading true), .emit 0 (.setError none), .requestWeatherPair]
    ++ if c.c1 then []
    else
      [.weatherSettled]
      ++ match validateAndExtract env with
        | .error msg =>
          if c.c2 then []
          else [.emit 2 (.setWeather none), .emit 2 (.setForecast []),
                .emit 2 (.setError (some msg)), .emit 2 (.setLoading false)]
        | .ok (temp, w, fallbackName, hourly) =>
          (if env.geo.keyPresent then [.requestGeocode] else [])
          ++ if c.c3 then []
          else
            [.emit 3 (.setWeather (some
                { name := snapshotName (resolveLocationName env.geo) fallbackName
                  temp := temp
                  description := w.description
                  iconCode := w.icon })),
             .emit 3 (.setForecast hourly),
             .emit 3 (.setLoading false)]

/-- The React state touched by the effect. -/
structure AppState where
  weather : Option WeatherSnapshot
  hourlyForecast : List HourlyForecastPoint
  loading : Bool
  errorMsg : Option String
  deriving DecidableEq, Repr

/-- Apply one state update. -/
def applyMut (s : AppState) : StateMut → AppState
  | .setLoading b => { s with loading := b }
  | .setError e => { s with errorMsg := e }
  | .setWeather w => { s with weather := w }
  | .setForecast f => { s with hourlyForecast := f }

/-- Apply a fetch event to the React state (non-`emit` events change
nothing). -/
def applyEvent (s : AppState) : FetchEvent → AppState
  | .emit _ m => applyMut s m
  | _ => s

/-- Apply a whole trace. -/
def applyTrace (s : AppState) (tr : List FetchEvent) : AppState :=
  tr.foldl applyEvent s

/-! ## Concrete fixtures for closed evaluations -/

/-- A well-formed current-conditions body. -/
def currentJsonOk : CurrentJson :=
  { message := none
    error := none
    main_temp := some (.num 20)
    weather := some [some { description := "clear sky", icon := "01d" }]
    name := "Tokyo" }

/-- A well-formed forecast body with one valid record. -/
def forecastJsonOk : ForecastJson :=
  { message := none, error := none, list := some [some sampleRecord] }

/-- A geocoding environment with the key configured (body irrelevant). -/
def geoEnvOk : GeocodeEnv :=
  { keyPresent := true, aborted := false, ok := true, body := none }

/-- A fully successful fetch environment. -/
def fetchEnvOk : FetchEnv :=
  { apiKeyPresent := true
    currentRes := { ok := true, status := 200, body := some currentJsonOk }
    forecastRes := { ok := true, status := 200, body := some forecastJsonOk }
    geo := geoEnvOk
    parseDate := parse0
    fmtTime := fmt0 }

/-- A fetch environment whose current-conditions request fails with 401 and
a provider message. -/
def fetchEnvFail : FetchEnv :=
  { apiKeyPresent := true
    currentRes :=
      { ok := false
        status := 401
        body := some { currentJsonOk with message := some "invalid key" } }
    forecastRes := { ok := true, status := 200, body := some forecastJsonOk }
    geo := geoEnvOk
    parseDate := parse0
    fmtTime := fmt0 }

/-- A valid position used to start fetches in closed evaluations. -/
def posOk : GeoCoords := { latitude := .num 35, longitude := .num 139, accuracy := .num 10 }

/-- A session that has retained the 150 m fix and whose deadline is armed. -/
def preDeadlineState : SessionState :=
  { sessionInit with bestPosition := some fixA150 }

/-- A fix whose latitude is `NaN`. -/
def fixNaNLat : GeoCoords := { latitude := .nan, longitude := .num 0, accuracy := .num 1 }

/-- A record with a valid timestamp but no temperature field. -/
def missingTempRecord : RawForecastEntry :=
  { dt := some (.num 1), dt_txt := none, main_temp := none, pop := none }

/-- Classify a fetch event without looking at emitted values (0 = the
weather request pair, 1 = weather settled, 2 = the geocode request,
3 = a state update). -/
def eventTag : FetchEvent → ℕ
  | .requestWeatherPair => 0
  | .weatherSettled => 1
  | .requestGeocode => 2
  | .emit _ _ => 3

/-- The initial React state of the component. -/
def app0 : AppState :=
  { weather := none, hourlyForecast := [], loading := true, errorMsg := none }

/-! ## Session invariant -/

/-- Invariant of every reachable session state: once `hasFetched` is set the
subscription and the timer are down and exactly one fetch was triggered;
before any decision no fetch was triggered; after cancellation the
subscription and the timer are down. -/
def SessionInv (s : SessionState) : Prop :=
  (s.hasFetched = true → s.watching = false ∧ s.timerActive = false ∧ s.fetched.length = 1)
  ∧ (s.hasFetched = false → s.fetched = [])
  ∧ (s.isCancelled = true → s.watching = false ∧ s.timerActive = false)

theorem sessionInit_inv : SessionInv sessionInit := by
  simp [SessionInv, sessionInit]

theorem step_inv (s : SessionState) (e : GeoEvent) (h : SessionInv s) : SessionInv (step s e) := by
  obtain ⟨h1, h2, h3⟩ := h
  obtain ⟨c, w, t, bp, hf, f, er⟩ := s
  simp only [SessionInv] at *
  cases e <;> cases c <;> cases w <;> cases hf <;> cases bp <;>
    simp_all [step, maybeUsePosition, handleGeoError, fallbackTimerFire,
      reportLocationError, stopWatching, cancelCleanup] <;>
    split_ifs <;> simp_all

theorem run_inv (events : List GeoEvent) (s : SessionState) (h : SessionInv s) :
    SessionInv (run s events) := by
  induction events generalizing s with
  | nil => exact h
  | cons e rest ih => exact ih (step s e) (step_inv s e h)

theorem run_append (s : SessionState) (l1 l2 : List GeoEvent) :
    run s (l1 ++ l2) = run (run s l1) l2 :=
  List.foldl_append step s l1 l2

/-- C1: the session does NOT retain the lowest-accuracy fix.  With two
valid updates of accuracies 150 m and 500 m (neither meeting the 100 m
threshold), `bestPosition` holds the second, worse update, and the deadline
fetch uses it instead of the better first fix. -/
theorem later_worse_update_replaces_best :
    (run sessionInit [GeoEvent.posUpdate fixA150, GeoEvent.posUpdate fixA500]).bestPosition
      = some fixA500
    ∧ (run sessionInit
        [GeoEvent.posUpdate fixA150, GeoEvent.posUpdate fixA500, GeoEvent.timerFire]).fetched
      = [fixA500]
    ∧ fixA150.accuracy = .num 150
    ∧ fixA500.accuracy = .num 500
    ∧ qualifies fixA150 = false
    ∧ qualifies fixA500 = false := by
  decide

/-- C2: per session at most one fetch is ever triggered; once a decision is
made the subscription and timer are torn down in the same step; and while
the subscription is still live, the first valid update meeting the accuracy
threshold triggers the (sole) fetch with exactly that fix. -/
theorem at_most_one_fetch_decision (events : List GeoEvent) :
    (run sessionInit events).fetched.length ≤ 1
    ∧ ((run sessionInit events).hasFetched = true →
        (run sessionInit events).watching = false
        ∧ (run sessionInit events).timerActive = false)
    ∧ (∀ p : GeoCoords, (run sessionInit events).watching = true →
        validCoords p = true → qualifies p = true →
        (run sessionInit (events ++ [GeoEvent.posUpdate p])).fetched = [p]) := by
  obtain ⟨h1, h2, h3⟩ := run_inv events sessionInit sessionInit_inv
  refine ⟨?_, ?_, ?_⟩
  · cases hhf : (run sessionInit events).hasFetched
    · simp [h2 hhf]
    · exact le_of_eq (h1 hhf).2.2
  · intro hf
    exact ⟨(h1 hf).1, (h1 hf).2.1⟩
  · intro p hw hval hq
    have hhf : (run sessionInit events).hasFetched = false := by
      cases hhf2 : (run sessionInit events).hasFetched
      · rfl
      · rw [(h1 hhf2).1] at hw
        exact absurd hw (by simp)
    have hc : (run sessionInit events).isCancelled = false := by
      cases hc2 : (run sessionInit events).isCancelled
      · rfl
      · rw [(h3 hc2).1] at hw
        exact absurd hw (by simp)
    have hval2 : p.latitude.isNaN = false ∧ p.longitude.isNaN = false := by
      simpa [validCoords] using hval
    have hfe : (run sessionInit events).fetched = [] := h2 hhf
    rw [run_append]
    generalize (run sessionInit events) = s at hw hhf hc hfe
    simp [run, step, hw, maybeUsePosition, hc, hhf, hval2.1, hval2.2, hq,
      stopWatching, hfe]

theorem at_most_one_fetch_decision_witness :
    (run sessionInit ([] ++ [GeoEvent.posUpdate posOk])).fetched = [posOk] :=
  (at_most_one_fetch_decision []).2.2 posOk (by decide) (by decide) (by decide)

/-- C3 counterexample: when the deadline fires with no fix ever observed,
the session reports the generic message "Unable to refine your location.",
which is not the Timeout entry of the `describeGeoError` mapping. -/
theorem deadline_message_not_timeout_entry :
    (run sessionInit [GeoEvent.timerFire]).errorReports
      = ["Unable to refine your location."]
    ∧ (run sessionInit [GeoEvent.timerFire]).hasFetched = false
    ∧ describeGeoError 3 "" = "Timed out while trying to retrieve your location."
    ∧ "Unable to refine your location." ≠ describeGeoError 3 "" := by
  decide

/-- C3 amended: if the deadline timer fires with the timer still armed and
no decision made, then when a fix has been retained it is accepted and
fetched (with subscription and timer torn down), and when no fix was ever
seen the session fails with the generic message
"Unable to refine your location." (not the Timeout mapping entry). -/
theorem deadline_accepts_retained_or_generic (s : SessionState)
    (hT : s.timerActive = true) (hC : s.isCancelled = false) (hF : s.hasFetched = false) :
    (∀ bp, s.bestPosition = some bp →
        (step s GeoEvent.timerFire).fetched = s.fetched ++ [bp]
        ∧ (step s GeoEvent.timerFire).hasFetched = true
        ∧ (step s GeoEvent.timerFire).watching = false
        ∧ (step s GeoEvent.timerFire).timerActive = false)
    ∧ (s.bestPosition = none →
        (step s GeoEvent.timerFire).errorReports
          = s.errorReports ++ ["Unable to refine your location."]
        ∧ (step s GeoEvent.timerFire).fetched = s.fetched) := by
  constructor
  · intro bp hbp
    simp [step, hT, fallbackTimerFire, hC, hF, hbp, stopWatching]
  · intro hbp
    simp [step, hT, fallbackTimerFire, hC, hF, hbp, reportLocationError, stopWatching]

theorem deadline_accepts_retained_or_generic_witness :
    (step preDeadlineState GeoEvent.timerFire).fetched = [fixA150] := by
  have h := (deadline_accepts_retained_or_generic preDeadlineState
    (by decide) (by decide) (by decide)).1 fixA150 (by decide)
  simpa using h.1

/-- C4 counterexample: a fix whose latitude is `Infinity` (non-finite) is
accepted by the acquirer — it is recorded as the best fix and it triggers
the fetch — and the defensive re-check in `fetchWeatherForPosition` also
lets it through (the run proceeds to the weather requests instead of
failing). -/
theorem infinite_coordinate_accepted :
    (run sessionInit [GeoEvent.posUpdate fixInfLat]).fetched = [fixInfLat]
    ∧ (run sessionInit [GeoEvent.posUpdate fixInfLat]).bestPosition = some fixInfLat
    ∧ fixInfLat.latitude.isFinite = false
    ∧ FetchEvent.requestWeatherPair ∈ runFetch fetchEnvOk noCancel fixInfLat := by
  decide

/-- C4 amended: a position update whose latitude or longitude is `NaN` is
discarded by `maybeUsePosition` (never accepted, never recorded as best),
and the re-check in `fetchWeatherForPosition` rejects `NaN` coordinates
fatally, emitting exactly the `reportLocationError` updates. -/
theorem nan_coordinates_discarded (p : GeoCoords)
    (h : p.latitude.isNaN = true ∨ p.longitude.isNaN = true) :
    (∀ s, maybeUsePosition s p = s)
    ∧ (∀ (env : FetchEnv) (c : CancelSchedule), c.c0 = false →
        runFetch env c p
          = (reportMuts false "Received invalid coordinates from geolocation.").map
              (FetchEvent.emit 0)) := by
  have hcond : (p.latitude.isNaN || p.longitude.isNaN) = true := by
    rcases h with h | h <;> simp [h]
  constructor
  · intro s
    unfold maybeUsePosition
    split_ifs <;> simp_all
  · intro env c hc0
    simp [runFetch, hc0, hcond]

theorem nan_coordinates_discarded_witness :
    maybeUsePosition sessionInit fixNaNLat = sessionInit
    ∧ runFetch fetchEnvOk noCancel fixNaNLat
        = (reportMuts false "Received invalid coordinates from geolocation.").map
            (FetchEvent.emit 0) := by
  have h := nan_coordinates_discarded fixNaNLat (Or.inl (by decide))
  exact ⟨h.1 sessionInit, h.2 fetchEnvOk noCancel rfl⟩

theorem mapForecastEntry_none (parse : String → JsNum) (fmt : JsNum → String) :
    mapForecastEntry parse fmt none = none := rfl

/-- Rounding a finite temperature to 0.1 (`Math.round(t * 10) / 10`). -/
theorem roundTemp_num (t : ℚ) :
    (jsRound ((JsNum.num t).scale 10)).scale (1 / 10)
      = .num (((⌊t * 10 + 1 / 2⌋ : ℤ) : ℚ) / 10) := by
  simp [JsNum.scale, jsRound, div_eq_mul_inv]

/-- Evaluates `toPercent` on a finite fraction: multiply by 100, round half-up, clamp
to `[0, 100]`. -/
theorem toPercent_num (q : ℚ) :
    toPercent (.num q) = .num (max 0 (min 100 ((⌊q * 100 + 1 / 2⌋ : ℤ) : ℚ))) := by
  unfold toPercent
  have h1 : (JsNum.num q).scale 100 = .num (q * 100) := rfl
  rw [h1]
  have h2 : jsRound (JsNum.num (q * 100)) = .num ((⌊q * 100 + 1 / 2⌋ : ℤ) : ℚ) := rfl
  rw [h2]
  set r : ℚ := ((⌊q * 100 + 1 / 2⌋ : ℤ) : ℚ) with hr
  by_cases hle : (100 : ℚ) ≤ r
  · rw [min_eq_left hle, max_eq_right (by linarith : (0 : ℚ) ≤ (100 : ℚ))]
    simp [jsMin, jsMax, jsLe, JsNum.isNaN, hle]
  · rw [min_eq_right (le_of_not_le hle)]
    by_cases h0 : (0 : ℚ) ≤ r
    · rw [max_eq_right h0]
      simp [jsMin, jsMax, jsLe, JsNum.isNaN, hle, h0]
    · rw [max_eq_left (le_of_not_le h0)]
      simp [jsMin, jsMax, jsLe, JsNum.isNaN, hle, h0]

theorem toPercent_zero : toPercent (.num 0) = .num 0 := by
  have hf : ⌊(0 * 100 + 1 / 2 : ℚ)⌋ = 0 := by
    rw [Int.floor_eq_iff] <;> norm_num
  rw [toPercent_num, hf]
  norm_num

/-- A record with numeric `dt` and finite temperature always yields a
point; its fields are computed as in the source. -/
theorem mapForecastEntry_finite (parse : String → JsNum) (fmt : JsNum → String)
    (d t : ℚ) (txt : Option String) (popv : Option JsNum) :
    mapForecastEntry parse fmt
      (some { dt := some (.num d), dt_txt := txt, main_temp := some (.num t), pop := popv })
      = some { time := fmt (.num (d * 1000))
               temp := (jsRound ((JsNum.num t).scale 10)).scale (1 / 10)
               pop := toPercent (match popv with
                 | some p => if p.isFinite then p else JsNum.num 0
                 | none => JsNum.num 0) } := by
  simp [mapForecastEntry, JsNum.scale, JsNum.isFinite, JsNum.isNaN]

/-- C5 counterexample: a record whose temperature is `Infinity` — a
non-finite number — is NOT dropped by the sampler; it produces a point with
an infinite temperature. -/
theorem infinite_temperature_retained :
    (buildThreeHourlyForecast parse0 fmt0 [some infiniteTempRecord]).length = 1
    ∧ (buildThreeHourlyForecast parse0 fmt0 [some infiniteTempRecord]).map
        HourlyForecastPoint.temp = [JsNum.posInf]
    ∧ infiniteTempRecord.main_temp = some JsNum.posInf
    ∧ JsNum.posInf.isFinite = false := by
  decide

/-- C5 amended: a record whose temperature is missing (or not a number) or
`NaN` is dropped by the sampler, and its slot behaves exactly like a null
record: dropping it does not affect whether the surrounding records are
included. -/
theorem invalid_temperature_dropped (parse : String → JsNum) (fmt : JsNum → String)
    (e : RawForecastEntry) (h : e.main_temp = none ∨ e.main_temp = some JsNum.nan) :
    mapForecastEntry parse fmt (some e) = none
    ∧ ∀ l1 l2, buildThreeHourlyForecast parse fmt (l1 ++ some e :: l2)
        = buildThreeHourlyForecast parse fmt (l1 ++ none :: l2) := by
  have hmap : mapForecastEntry parse fmt (some e) = none := by
    rcases h with h | h <;> simp [mapForecastEntry, h, JsNum.isNaN]
  refine ⟨hmap, ?_⟩
  intro l1 l2
  unfold buildThreeHourlyForecast
  rw [List.map_take, List.map_take, List.map_append, List.map_append,
    List.map_cons, List.map_cons, hmap, mapForecastEntry_none]

theorem invalid_temperature_dropped_witness :
    mapForecastEntry parse0 fmt0 (some missingTempRecord) = none
    ∧ buildThreeHourlyForecast parse0 fmt0 ([some sampleRecord] ++ some missingTempRecord :: [])
        = buildThreeHourlyForecast parse0 fmt0 ([some sampleRecord] ++ none :: []) := by
  have h := invalid_temperature_dropped parse0 fmt0 missingTempRecord (Or.inl rfl)
  exact ⟨h.1, h.2 [some sampleRecord] []⟩

/-- C6: for a record with a numeric timestamp, finite temperature and
finite `pop`, the sampled temperature is the raw temperature rounded to
0.1 and the percentage is `pop * 100` rounded then clamped to `[0, 100]`;
`pop` absent or non-finite defaults to 0; and the spec's concrete record
`{dt: 1700000000, main: {temp: 21.36}, pop: 0.42}` samples to
`21.4` and `42`. -/
theorem sampler_rounding_and_clamping (parse : String → JsNum) (fmt : JsNum → String)
    (d t q : ℚ) (txt : Option String) :
    mapForecastEntry parse fmt
      (some { dt := some (.num d), dt_txt := txt, main_temp := some (.num t), pop := some (.num q) })
      = some { time := fmt (.num (d * 1000))
               temp := .num (((⌊t * 10 + 1 / 2⌋ : ℤ) : ℚ) / 10)
               pop := .num (max 0 (min 100 ((⌊q * 100 + 1 / 2⌋ : ℤ) : ℚ))) }
    ∧ mapForecastEntry parse fmt
      (some { dt := some (.num d), dt_txt := txt, main_temp := some (.num t), pop := none })
      = some { time := fmt (.num (d * 1000))
               temp := .num (((⌊t * 10 + 1 / 2⌋ : ℤ) : ℚ) / 10)
               pop := .num 0 }
    ∧ mapForecastEntry parse fmt
      (some { dt := some (.num d), dt_txt := txt, main_temp := some (.num t), pop := some .nan })
      = some { time := fmt (.num (d * 1000))
               temp := .num (((⌊t * 10 + 1 / 2⌋ : ℤ) : ℚ) / 10)
               pop := .num 0 }
    ∧ mapForecastEntry parse0 fmt0 (some sampleRecord)
      = some { time := "", temp := .num (214 / 10), pop := .num 42 } := by
  refine ⟨?_, ?_, ?_, ?_⟩
  · rw [mapForecastEntry_finite, roundTemp_num]
    simp [toPercent_num, JsNum.isFinite]
  · rw [mapForecastEntry_finite, roundTemp_num]
    simp [toPercent_zero]
  · rw [mapForecastEntry_finite, roundTemp_num]
    simp [toPercent_zero, JsNum.isFinite]
  · have h214 : ⌊(2136 / 100 * 10 + 1 / 2 : ℚ)⌋ = 214 := by
      rw [Int.floor_eq_iff] <;> norm_num
    have h42 : ⌊(42 / 100 * 100 + 1 / 2 : ℚ)⌋ = 42 := by
      rw [Int.floor_eq_iff] <;> norm_num
    have hrec : sampleRecord =
        { dt := some (.num 1700000000), dt_txt := none,
          main_temp := some (.num (2136 / 100)), pop := some (.num (42 / 100)) } := rfl
    rw [hrec, mapForecastEntry_finite, roundTemp_num]
    have hmatch : (match some (JsNum.num (42 / 100)) with
        | some p => if p.isFinite then p else JsNum.num 0
        | none => JsNum.num 0) = JsNum.num (42 / 100) := rfl
    rw [hmatch, toPercent_num, h214, h42]
    simp [fmt0]
    norm_num

/-- C7: the sampler considers only the first `FORECAST_POINTS = 8` records,
its output never exceeds 8 points, and 10 valid records yield exactly 8
points. -/
theorem sampler_first_eight_records (parse : String → JsNum) (fmt : JsNum → String)
    (l : List (Option RawForecastEntry)) :
    buildThreeHourlyForecast parse fmt l
      = buildThreeHourlyForecast parse fmt (l.take FORECAST_POINTS)
    ∧ (buildThreeHourlyForecast parse fmt l).length ≤ FORECAST_POINTS
    ∧ FORECAST_POINTS = 8
    ∧ (buildThreeHourlyForecast parse0 fmt0 (List.replicate 10 (some sampleRecord))).length = 8 := by
  refine ⟨?_, ?_, rfl, by decide⟩
  · unfold buildThreeHourlyForecast
    rw [List.take_take]
    simp
  · unfold buildThreeHourlyForecast
    calc (((l.take FORECAST_POINTS).map (mapForecastEntry parse fmt)).filterMap id).length
        ≤ ((l.take FORECAST_POINTS).map (mapForecastEntry parse fmt)).length :=
          List.length_filterMap_le _ _
      _ = (l.take FORECAST_POINTS).length := List.length_map _ _
      _ ≤ FORECAST_POINTS := List.length_take_le _ _

/-- C8 counterexample: in a fully successful, never-cancelled run, the
reverse-geocoding request is issued only AFTER the weather requests have
completed: the trace orders the weather-settled event (index 3) strictly
before the geocode request (index 4). -/
theorem geocode_request_after_weather_eval :
    (runFetch fetchEnvOk noCancel posOk).map eventTag = [3, 3, 0, 1, 2, 3, 3, 3]
    ∧ (runFetch fetchEnvOk noCancel posOk).indexOf FetchEvent.requestGeocode = 4
    ∧ (runFetch fetchEnvOk noCancel posOk).indexOf FetchEvent.weatherSettled = 3 := by
  decide

/-- C8 amended: whenever the reverse-geocoding request is issued at all, it
is issued immediately after both weather responses have completed and been
validated — sequentially, never concurrently with the weather requests. -/
theorem geocode_request_follows_weather_completion (env : FetchEnv)
    (c : CancelSchedule) (pos : GeoCoords)
    (h : FetchEvent.requestGeocode ∈ runFetch env c pos) :
    ∃ l1 l2, runFetch env c pos
      = l1 ++ FetchEvent.weatherSettled :: FetchEvent.requestGeocode :: l2 := by
  by_cases h0 : c.c0 = true
  · simp [runFetch, h0] at h
  by_cases hco : (pos.latitude.isNaN || pos.longitude.isNaN) = true
  · simp [runFetch, h0, hco, reportMuts] at h
  by_cases hk : env.apiKeyPresent = false
  · simp [runFetch, h0, hco, hk, reportMuts] at h
  by_cases h1 : c.c1 = true
  · simp [runFetch, h0, hco, hk, h1] at h
  rcases hv : validateAndExtract env with msg | res
  · by_cases h2 : c.c2 = true
    · simp [runFetch, h0, hco, hk, h1, h2, hv] at h
    · simp [runFetch, h0, hco, hk, h1, h2, hv] at h
  · obtain ⟨temp, w, fallbackName, hourly⟩ := res
    by_cases hg : env.geo.keyPresent = true
    · refine ⟨[.emit 0 (.setLoading true), .emit 0 (.setError none), .requestWeatherPair],
        (if c.c3 = true then [] else
          [.emit 3 (.setWeather (some
              { name := snapshotName (resolveLocationName env.geo) fallbackName
                temp := temp
                description := w.description
                iconCode := w.icon })),
           .emit 3 (.setForecast hourly),
           .emit 3 (.setLoading false)]), ?_⟩
      simp [runFetch, h0, hco, hk, h1, hv, hg]
    · simp [runFetch, h0, hco, hk, h1, hv, hg] at h

theorem geocode_request_follows_weather_completion_witness :
    ∃ l1 l2, runFetch fetchEnvOk noCancel posOk
      = l1 ++ FetchEvent.weatherSettled :: FetchEvent.requestGeocode :: l2 :=
  geocode_request_follows_weather_completion fetchEnvOk noCancel posOk (by decide)

/-- C9: cancellation is absorbing.  Every state update emitted by a fetch
run happens at a checkpoint where `isCancelled` is still false (so under a
monotone cancellation schedule nothing — no Error, no Ready, no loading
update — is emitted after cancellation), and once a session is cancelled no
further fetch and no further error report ever occurs. -/
theorem no_state_emission_after_cancellation (env : FetchEnv) (c : CancelSchedule)
    (pos : GeoCoords) (hm : c.mono) (k : ℕ) (m : StateMut)
    (h : FetchEvent.emit k m ∈ runFetch env c pos) :
    checkpointCancelled c k = false
    ∧ ∀ (s : SessionState) (events : List GeoEvent), s.isCancelled = true →
        (run s events).fetched = s.fetched
        ∧ (run s events).errorReports = s.errorReports := by
  constructor
  · by_cases h0 : c.c0 = true
    · simp [runFetch, h0] at h
    by_cases hco : (pos.latitude.isNaN || pos.longitude.isNaN) = true
    · simp [runFetch, h0, hco, reportMuts] at h
      rcases h with ⟨hk, _⟩ | ⟨hk, _⟩ | ⟨hk, _⟩ | ⟨hk, _⟩ <;>
        simp [hk, checkpointCancelled, h0]
    by_cases hk : env.apiKeyPresent = false
    · simp [runFetch, h0, hco, hk, reportMuts] at h
      rcases h with ⟨hk2, _⟩ | ⟨hk2, _⟩ | ⟨hk2, _⟩ | ⟨hk2, _⟩ <;>
        simp [hk2, checkpointCancelled, h0]
    by_cases h1 : c.c1 = true
    · simp [runFetch, h0, hco, hk, h1] at h
      rcases h with ⟨hk2, _⟩ | ⟨hk2, _⟩ <;> simp [hk2, checkpointCancelled, h0]
    rcases hv : validateAndExtract env with msg | res
    · by_cases h2 : c.c2 = true
      · simp [runFetch, h0, hco, hk, h1, h2, hv] at h
        rcases h with ⟨hk2, _⟩ | ⟨hk2, _⟩ <;> simp [hk2, checkpointCancelled, h0]
      · simp [runFetch, h0, hco, hk, h1, h2, hv] at h
        rcases h with ⟨hk2, _⟩ | ⟨hk2, _⟩ | ⟨hk2, _⟩ | ⟨hk2, _⟩ | ⟨hk2, _⟩ | ⟨hk2, _⟩ <;>
          simp [hk2, checkpointCancelled, h0, h2]
    · obtain ⟨temp, w, fallbackName, hourly⟩ := res
      by_cases h3 : c.c3 = true
      · simp [runFetch, h0, hco, hk, h1, h3, hv] at h
        rcases h with ⟨hk2, _⟩ | ⟨hk2, _⟩ <;> simp [hk2, checkpointCancelled, h0]
      · simp [runFetch, h0, hco, hk, h1, h3, hv] at h
        rcases h with ⟨hk2, _⟩ | ⟨hk2, _⟩ | ⟨hk2, _⟩ | ⟨hk2, _⟩ | ⟨hk2, _⟩ <;>
          simp [hk2, checkpointCancelled, h0, h3]
  · intro s events hc
    induction events generalizing s with
    | nil => exact ⟨rfl, rfl⟩
    | cons e rest ih =>
      have hstep : (step s e).isCancelled = true
          ∧ (step s e).fetched = s.fetched
          ∧ (step s e).errorReports = s.errorReports := by
        cases e <;>
          simp [step, maybeUsePosition, handleGeoError, fallbackTimerFire,
            reportLocationError, cancelCleanup, stopWatching, hc]
      have hrun : run s (e :: rest) = run (step s e) rest := rfl
      rw [hrun]
      obtain ⟨hc2, hf2, he2⟩ := hstep
      obtain ⟨ihf, ihe⟩ := ih (step s e) hc2
      exact ⟨ihf.trans hf2, ihe.trans he2⟩

theorem no_state_emission_after_cancellation_witness :
    checkpointCancelled noCancel 0 = false :=
  (no_state_emission_after_cancellation fetchEnvOk noCancel posOk
    (by refine ⟨?_, ?_, ?_⟩ <;> intro hx <;> exact absurd hx (by decide)) 0
    (.setLoading true) (by decide)).1

/-- C10: whenever a fetch run transitions to the Error state (it emits
`setError (some msg)`), the final React state has the weather snapshot
cleared and the forecast empty; and the `reportLocationError` path clears
both in the same batch as it sets the error message. -/
theorem error_transition_clears_weather (env : FetchEnv) (c : CancelSchedule)
    (pos : GeoCoords) (s0 : AppState) (k : ℕ) (msg : String)
    (h : FetchEvent.emit k (StateMut.setError (some msg)) ∈ runFetch env c pos) :
    (applyTrace s0 (runFetch env c pos)).weather = none
    ∧ (applyTrace s0 (runFetch env c pos)).hourlyForecast = []
    ∧ ∀ (s1 : AppState) (m1 : String),
        (applyTrace s1 ((reportMuts false m1).map (FetchEvent.emit 0))).weather = none
        ∧ (applyTrace s1 ((reportMuts false m1).map (FetchEvent.emit 0))).hourlyForecast = []
        ∧ (applyTrace s1 ((reportMuts false m1).map (FetchEvent.emit 0))).errorMsg = some m1 := by
  have hreport : ∀ (s1 : AppState) (m1 : String),
      (applyTrace s1 ((reportMuts false m1).map (FetchEvent.emit 0))).weather = none
      ∧ (applyTrace s1 ((reportMuts false m1).map (FetchEvent.emit 0))).hourlyForecast = []
      ∧ (applyTrace s1 ((reportMuts false m1).map (FetchEvent.emit 0))).errorMsg = some m1 := by
    intro s1 m1
    simp [reportMuts, applyTrace, applyEvent, applyMut]
  have key : (applyTrace s0 (runFetch env c pos)).weather = none
      ∧ (applyTrace s0 (runFetch env c pos)).hourlyForecast = [] := by
    by_cases h0 : c.c0 = true
    · simp [runFetch, h0] at h
    by_cases hco : (pos.latitude.isNaN || pos.longitude.isNaN) = true
    · simp [runFetch, h0, hco, reportMuts, applyTrace, applyEvent, applyMut]
    by_cases hk : env.apiKeyPresent = false
    · simp [runFetch, h0, hco, hk, reportMuts, applyTrace, applyEvent, applyMut]
    by_cases h1 : c.c1 = true
    · simp [runFetch, h0, hco, hk, h1] at h
    rcases hv : validateAndExtract env with emsg | res
    · by_cases h2 : c.c2 = true
      · simp [runFetch, h0, hco, hk, h1, h2, hv] at h
      · simp [runFetch, h0, hco, hk, h1, h2, hv, applyTrace, applyEvent, applyMut]
    · obtain ⟨temp, w, fallbackName, hourly⟩ := res
      by_cases h3 : c.c3 = true
      · simp [runFetch, h0, hco, hk, h1, h3, hv] at h
      · simp [runFetch, h0, hco, hk, h1, h3, hv] at h
  exact ⟨key.1, key.2, hreport⟩

theorem error_transition_clears_weather_witness :
    (applyTrace app0 (runFetch fetchEnvFail noCancel posOk)).weather = none
    ∧ (applyTrace app0 (runFetch fetchEnvFail noCancel posOk)).hourlyForecast = [] := by
  have h := error_transition_clears_weather fetchEnvFail noCancel posOk app0 2
    "401 invalid key" (by decide)
  exact ⟨h.1, h.2.1⟩
